import Mathlib

/-!
Verification of the quest state-transition and consensus-gating subsystem of
the Enochian Cyphers repository.

The development shallowly embeds two source files:
* `src/core.rs` — the quest registry and player state store (`EnochianCore`,
  `GameState`, `QuestData`, `register_quest`, `start_quest`, `complete_quest`,
  `apply_quest_rewards`);
* `story-engine/core/trac_state_manager.rs` — the transition log
  (`TracStateManager`, `StoryState`, `StateTransition`, `propose_state_transition`,
  `validate_transition`, `apply_consequences`, `calculate_state_hash`).

Modelling conventions:
* Rust `f64` values are modelled as `ℚ`.  The only `f64` operations the
  subsystem performs are `+`, comparison, `min`, `max`, `ceil` and casts,
  all of which are exact on the rational values appearing here.
* Rust `HashMap<String, f64>` fields that are only read through
  `get(..).unwrap_or(&0.0)` and written through `insert` are modelled as
  total functions `String → ℚ` with default `0` (`updQ` is `insert`).
* `HashMap<String, V>` registries are modelled as `String → Option V`
  (`updFn` is `insert`).  Reward maps, which the code iterates over, are
  modelled as association lists.
* `u32`/`u64`/`usize` are `ℕ`; `saturating_sub` is `ℕ` subtraction; the
  `as u32` float cast (truncate toward zero, saturate below at `0`) is
  `Int.toNat ∘ Int.floor` on the non-negative values involved.
* `chrono::Utc::now().to_rfc3339()` is an ambient clock input, passed to the
  mutating operations as an explicit `now : String` argument.
* Rust `format!` is modelled by string concatenation, with `natRepr`
  implementing the decimal formatting of unsigned integers.
-/

/-! ### Decimal formatting helpers -/

/-- Little-endian base-10 digit list, structurally recursive on a fuel bound
(`natDigitsAux n n` agrees with `Nat.digits 10 n`, proved below). -/
def natDigitsAux : ℕ → ℕ → List ℕ
  | 0, _ => []
  | fuel + 1, n => if n = 0 then [] else n % 10 :: natDigitsAux fuel (n / 10)

/-- Little-endian base-10 digits of `n`. -/
def natDigits (n : ℕ) : List ℕ := natDigitsAux n n

/-- The character for a single decimal digit. -/
def digitChar (d : ℕ) : Char :=
  match d with
  | 0 => '0' | 1 => '1' | 2 => '2' | 3 => '3' | 4 => '4'
  | 5 => '5' | 6 => '6' | 7 => '7' | 8 => '8' | 9 => '9'
  | _ => '*'

/-- Decimal representation of a natural number, as produced by Rust's
`format!` for unsigned integers. -/
def natRepr (n : ℕ) : String :=
  if n = 0 then "0" else String.mk (((natDigits n).map digitChar).reverse)

/-- Decimal representation of an integer. -/
def intRepr (i : ℤ) : String :=
  if i < 0 then ("-") ++ natRepr i.natAbs else natRepr i.natAbs

/-- Stand-in for Rust's `Display` formatting of an `f64` (exact decimal
float formatting is immaterial here; only the identity of the rendered
value matters for error messages). -/
def ratRepr (q : ℚ) : String := intRepr q.num ++ ("/") ++ natRepr q.den

/-! ### Map helpers -/

/-- `HashMap::insert` on a registry modelled as `String → Option β`. -/
def updFn {β : Type} (m : String → Option β) (k : String) (v : β) :
    String → Option β :=
  fun x => if x = k then some v else m x

/-- `HashMap::insert` on a numeric map modelled as `String → ℚ` with
default `0`. -/
def updQ (m : String → ℚ) (k : String) (v : ℚ) : String → ℚ :=
  fun x => if x = k then v else m x

/-- Append an element to a `Vec` only if it is not already present
(the `if !v.contains(x) { v.push(x) }` idiom of the source). -/
def addAbsent {α : Type} [DecidableEq α] (cur : List α) (a : α) : List α :=
  if a ∈ cur then cur else cur ++ [a]

/-! ### Substring test (Rust `str::contains`) -/

/-- Whether `needle` starts `hay`. -/
def startsWithB {α : Type} [DecidableEq α] : List α → List α → Bool
  | [], _ => true
  | _ :: _, [] => false
  | a :: as_, b :: bs => if a = b then startsWithB as_ bs else false

/-- Whether `needle` occurs contiguously inside `hay`. -/
def hasSegmentB {α : Type} [DecidableEq α] (needle : List α) : List α → Bool
  | [] => startsWithB needle []
  | b :: bs => startsWithB needle (b :: bs) || hasSegmentB needle bs

/-- Rust `hay.contains(needle)` on strings. -/
def strContainsB (needle hay : String) : Bool := hasSegmentB needle.data hay.data

/-! ### `src/core.rs` — data model -/

/-- `SystemConfig` from `src/core.rs`. -/
structure SystemConfig where
  authenticity_threshold : ℚ
  max_concurrent_quests : ℕ
  tradition_weighting : List (String × ℚ)
  governor_interaction_cooldown : ℕ
  enable_p2p_sync : Bool
  enable_bitcoin_integration : Bool

/-- `impl Default for SystemConfig`. -/
def SystemConfig.default : SystemConfig where
  authenticity_threshold := 95/100
  max_concurrent_quests := 3
  tradition_weighting :=
    [(("Enochian"), 6/10), (("Hermetic_Qabalah"), 15/100), (("Thelema"), 1/10),
     (("Golden_Dawn"), 1/10), (("Chaos_Magic"), 5/100)]
  governor_interaction_cooldown := 144
  enable_p2p_sync := false
  enable_bitcoin_integration := false

/-- `GameState` from `src/core.rs`. -/
structure GameState where
  player_id : String
  block_height : ℕ
  completed_quests : List String
  active_quests : List String
  tradition_mastery : String → ℚ
  governor_relationships : String → ℚ
  reputation_scores : String → ℚ
  owned_hypertokens : List String
  sacred_items : List String
  energy_level : ℕ
  aethyr_access : List ℕ
  balance_sats : ℕ
  staked_amount : ℕ
  pending_rewards : ℕ
  authenticity_score : ℚ
  last_update : String
  version : ℕ

/-- `QuestChoice` from `src/core.rs`. -/
structure QuestChoice where
  choice_id : String
  description : String
  consequences : List String
  difficulty_modifier : ℚ
  tradition_alignment : ℚ
  authenticity_impact : ℚ
  required_traditions : List String
  energy_cost : ℕ

/-- `QuestRewards` from `src/core.rs`. -/
structure QuestRewards where
  experience : ℕ
  reputation_changes : List (String × ℚ)
  tradition_mastery_gains : List (String × ℚ)
  governor_relationship_changes : List (String × ℚ)
  bitcoin_rewards : ℕ
  sacred_items : List String
  hypertoken_rewards : List String
  aethyr_access_gained : List ℕ

/-- `QuestData` from `src/core.rs`. -/
structure QuestData where
  quest_id : String
  title : String
  description : String
  objectives : List String
  wisdom_taught : String
  choice_branches : List QuestChoice
  authenticity_score : ℚ
  estimated_duration : ℕ
  tradition_integration : List String
  governor_name : String
  difficulty_level : ℕ
  required_energy : ℕ
  rewards : QuestRewards
  created_at : String

/-- The `EnochianError` variants exercised by the embedded core
(`src/lib.rs`; variants gated behind optional features are omitted). -/
inductive EnochianError where
  | authenticityError (message : String)
  | sacredConstraintViolation (constraint : String)
  | generic (message : String)
deriving DecidableEq

/-- `EnochianError::Generic` for an unknown player id. -/
def playerNotFoundErr (pid : String) : EnochianError :=
  .generic (("Player ") ++ pid ++ (" not found"))

/-- `EnochianError::Generic` for a duplicate player id. -/
def alreadyExistsErr (pid : String) : EnochianError :=
  .generic (("Player ") ++ pid ++ (" already exists"))

/-- `EnochianError::Generic` for an unknown quest id. -/
def questNotFoundErr (qid : String) : EnochianError :=
  .generic (("Quest ") ++ qid ++ (" not found"))

/-- `EnochianError::Generic` for a quest start with too little energy. -/
def insufficientEnergyErr (required available : ℕ) : EnochianError :=
  .generic (("Insufficient energy: ") ++ natRepr required ++ (" required, ")
    ++ natRepr available ++ (" available"))

/-- `EnochianError::Generic` for the concurrent-quest limit. -/
def concurrencyLimitErr (maxq : ℕ) : EnochianError :=
  .generic (("Maximum concurrent quests reached: ") ++ natRepr maxq)

/-- `EnochianError::Generic` for restarting a completed quest. -/
def alreadyCompletedErr (qid : String) : EnochianError :=
  .generic (("Quest ") ++ qid ++ (" already completed"))

/-- `EnochianError::Generic` for restarting an active quest. -/
def alreadyActiveErr (qid : String) : EnochianError :=
  .generic (("Quest ") ++ qid ++ (" already active"))

/-- `EnochianError::Generic` for completing a quest that is not active. -/
def notActiveErr (qid pid : String) : EnochianError :=
  .generic (("Quest ") ++ qid ++ (" is not active for player ") ++ pid)

/-- `EnochianError::AuthenticityError` raised by `validate_quest`. -/
def authenticityBelowThresholdErr (score threshold : ℚ) : EnochianError :=
  .authenticityError (("Quest authenticity ") ++ ratRepr score
    ++ (" below threshold ") ++ ratRepr threshold)

/-- `EnochianError::Generic` for a difficulty outside `[1, 10]`. -/
def invalidDifficultyErr : EnochianError :=
  .generic ("Quest difficulty must be between 1 and 10")

/-- `EnochianError::Generic` for a required energy above `25`. -/
def energyTooHighErr : EnochianError :=
  .generic ("Quest cannot require more than 25 energy")

/-- `EnochianCore` from `src/core.rs`. -/
structure EnochianCore where
  config : SystemConfig
  game_states : String → Option GameState
  quest_registry : String → Option QuestData
  initialized : Bool

/-- `EnochianCore::new`. -/
def EnochianCore.new (config : SystemConfig) : EnochianCore where
  config := config
  game_states := fun _ => none
  quest_registry := fun _ => none
  initialized := false

/-! ### `src/core.rs` — operations -/

/-- The fresh `GameState` record built by `create_player_state`. -/
def newGameState (pid now : String) : GameState where
  player_id := pid
  block_height := 0
  completed_quests := []
  active_quests := []
  tradition_mastery := updQ (fun _ => 0) ("Enochian") (1/10)
  governor_relationships := fun _ => 0
  reputation_scores := fun _ => 0
  owned_hypertokens := []
  sacred_items := []
  energy_level := 25
  aethyr_access := [1]
  balance_sats := 0
  staked_amount := 0
  pending_rewards := 0
  authenticity_score := 85/100
  last_update := now
  version := 1

/-- `EnochianCore::create_player_state` (the returned reference is dropped;
the updated store is returned instead). -/
def create_player_state (c : EnochianCore) (pid now : String) :
    Except EnochianError EnochianCore :=
  match c.game_states pid with
  | some _ => .error (alreadyExistsErr pid)
  | none => .ok { c with game_states := updFn c.game_states pid (newGameState pid now) }

/-- `EnochianCore::validate_quest`. -/
def validate_quest (c : EnochianCore) (q : QuestData) : Except EnochianError Unit :=
  if q.authenticity_score < c.config.authenticity_threshold then
    .error (authenticityBelowThresholdErr q.authenticity_score c.config.authenticity_threshold)
  else if q.difficulty_level = 0 ∨ 10 < q.difficulty_level then
    .error invalidDifficultyErr
  else if 25 < q.required_energy then
    .error energyTooHighErr
  else
    .ok ()

/-- `EnochianCore::register_quest`. -/
def register_quest (c : EnochianCore) (q : QuestData) :
    Except EnochianError EnochianCore :=
  match validate_quest c q with
  | .error e => .error e
  | .ok _ => .ok { c with quest_registry := updFn c.quest_registry q.quest_id q }

/-- `EnochianCore::validate_quest_start` (checks in source order: energy,
concurrency limit, already-completed, already-active). -/
def validate_quest_start (c : EnochianCore) (gs : GameState) (q : QuestData) :
    Except EnochianError Unit :=
  if gs.energy_level < q.required_energy then
    .error (insufficientEnergyErr q.required_energy gs.energy_level)
  else if c.config.max_concurrent_quests ≤ gs.active_quests.length then
    .error (concurrencyLimitErr c.config.max_concurrent_quests)
  else if q.quest_id ∈ gs.completed_quests then
    .error (alreadyCompletedErr q.quest_id)
  else if q.quest_id ∈ gs.active_quests then
    .error (alreadyActiveErr q.quest_id)
  else
    .ok ()

/-- `EnochianCore::start_quest`.  On success the quest id is pushed onto the
active list, the energy is decremented with `saturating_sub` (`ℕ`
subtraction), the timestamp is refreshed and the version is bumped. -/
def start_quest (c : EnochianCore) (pid qid now : String) :
    Except EnochianError EnochianCore :=
  match c.game_states pid with
  | none => .error (playerNotFoundErr pid)
  | some gs =>
    match c.quest_registry qid with
    | none => .error (questNotFoundErr qid)
    | some q =>
      match validate_quest_start c gs q with
      | .error e => .error e
      | .ok _ =>
        let gs' : GameState :=
          { gs with
            active_quests := gs.active_quests ++ [qid]
            energy_level := gs.energy_level - q.required_energy
            last_update := now
            version := gs.version + 1 }
        .ok { c with game_states := updFn c.game_states pid gs' }

/-- `EnochianCore::apply_quest_rewards`.  The source's sequential `for`
loops each write a single disjoint field of the player state, so they are
rendered as independent per-field folds (the source returns `Result` but
never fails). -/
def apply_quest_rewards (gs : GameState) (r : QuestRewards) : GameState :=
  { gs with
    reputation_scores :=
      r.reputation_changes.foldl (fun m kv => updQ m kv.1 (m kv.1 + kv.2))
        gs.reputation_scores,
    tradition_mastery :=
      r.tradition_mastery_gains.foldl (fun m kv => updQ m kv.1 (min (m kv.1 + kv.2) 1))
        gs.tradition_mastery,
    governor_relationships :=
      r.governor_relationship_changes.foldl
        (fun m kv => updQ m kv.1 (max (min (m kv.1 + kv.2) 1) (-1)))
        gs.governor_relationships,
    balance_sats := gs.balance_sats + r.bitcoin_rewards,
    sacred_items := r.sacred_items.foldl addAbsent gs.sacred_items,
    owned_hypertokens := r.hypertoken_rewards.foldl addAbsent gs.owned_hypertokens,
    aethyr_access := r.aethyr_access_gained.foldl addAbsent gs.aethyr_access }

/-- `EnochianCore::complete_quest`. -/
def complete_quest (c : EnochianCore) (pid qid now : String) :
    Except EnochianError (EnochianCore × QuestRewards) :=
  match c.game_states pid with
  | none => .error (playerNotFoundErr pid)
  | some gs =>
    match c.quest_registry qid with
    | none => .error (questNotFoundErr qid)
    | some q =>
      if qid ∈ gs.active_quests then
        let gs₁ := { gs with
          active_quests := gs.active_quests.filter (fun x => x ≠ qid)
          completed_quests := gs.completed_quests ++ [qid] }
        let gs₂ := apply_quest_rewards gs₁ q.rewards
        let gs₃ := { gs₂ with last_update := now, version := gs₂.version + 1 }
        .ok ({ c with game_states := updFn c.game_states pid gs₃ }, q.rewards)
      else
        .error (notActiveErr qid pid)

/-! ### `story-engine/core/trac_state_manager.rs` — data model -/

/-- `ActionType` from the transition log. -/
inductive ActionType where
  | startQuest | makeChoice | completeQuest
  | interactWithGovernor | useSacredItem | performRitual
deriving DecidableEq

/-- `QuestAction` from the transition log (`parameters` is an association
list standing for the `HashMap<String, String>`). -/
structure QuestAction where
  action_type : ActionType
  quest_id : String
  choice_id : Option String
  parameters : List (String × String)
  authenticity_proof : String
deriving DecidableEq

/-- `ConsequenceType` from the transition log. -/
inductive ConsequenceType where
  | reputationChange | traditionMastery | governorRelationship
  | energyModification | itemGain | itemLoss | aethyrAccess | wisdomUnlock
deriving DecidableEq

/-- `ConsequenceDuration` from the transition log. -/
inductive ConsequenceDuration where
  | temporary | permanent | questLine | conditional
deriving DecidableEq

/-- `StateConsequence` from the transition log. -/
structure StateConsequence where
  consequence_type : ConsequenceType
  target : String
  value_change : ℚ
  duration : ConsequenceDuration
  authenticity_impact : ℚ
deriving DecidableEq

/-- `ValidatorSignature` from the transition log. -/
structure ValidatorSignature where
  validator_id : String
  signature : String
  validation_timestamp : ℕ
  authenticity_score : ℚ
deriving DecidableEq

/-- `StoryState` from the transition log. -/
structure StoryState where
  player_id : String
  current_quest_id : String
  completed_quests : List String
  active_branches : List String
  governor_relationships : String → ℚ
  tradition_mastery : String → ℚ
  reputation_scores : String → ℚ
  energy_level : ℕ
  aethyr_access : List ℕ
  sacred_items : List String
  timestamp : ℕ
  state_hash : String

/-- `StateTransition` from the transition log. -/
structure StateTransition where
  transition_id : String
  from_state_hash : String
  to_state_hash : String
  quest_action : QuestAction
  consequences : List StateConsequence
  validator_signatures : List ValidatorSignature
  timestamp : ℕ
  block_height : ℕ

/-- `ValidatorNode` from the transition log. -/
structure ValidatorNode where
  node_id : String
  authenticity_weight : ℚ
  tradition_specialization : List String
  reputation_score : ℚ

/-- `ConsensusRules` from the transition log. -/
structure ConsensusRules where
  consensus_threshold : ℚ
  max_pending_transitions : ℕ
  authenticity_minimum : ℚ
  validator_timeout : ℕ

/-- `impl Default for ConsensusRules` (threshold `0.67`, at most `100`
pending transitions). -/
def ConsensusRules.default : ConsensusRules where
  consensus_threshold := 67/100
  max_pending_transitions := 100
  authenticity_minimum := 85/100
  validator_timeout := 3600

/-- `TracStateManager` from the transition log. -/
structure TracStateManager where
  current_state : Option StoryState
  pending_transitions : List StateTransition
  validator_network : List (String × ValidatorNode)
  consensus_rules : ConsensusRules
  state_history : List StoryState
  authenticity_validators : List String

/-- `TracStateManager::new` (three known validators). -/
def TracStateManager.new : TracStateManager where
  current_state := none
  pending_transitions := []
  validator_network := []
  consensus_rules := ConsensusRules.default
  state_history := []
  authenticity_validators :=
    [("enochian_validator"), ("hermetic_validator"), ("tradition_validator")]

/-! ### `trac_state_manager.rs` — operations -/

/-- `get_current_timestamp` (simulated 10-minute intervals). -/
def get_current_timestamp (mgr : TracStateManager) : ℕ :=
  1642680000 + mgr.state_history.length * 600

/-- `get_current_block_height`. -/
def get_current_block_height (mgr : TracStateManager) : ℕ :=
  800000 + mgr.state_history.length

/-- `calculate_state_hash`: the string-formatted pseudo-hash
`format!("hash_{}_{}_{}_{}", player_id, current_quest_id, timestamp,
completed_quests.len())`. -/
def calculate_state_hash (s : StoryState) : String :=
  ("hash_") ++ s.player_id ++ ("_") ++ s.current_quest_id ++ ("_")
    ++ natRepr s.timestamp ++ ("_") ++ natRepr s.completed_quests.length

/-- The `as u32` cast of the clamped energy value in `apply_consequences`:
`((energy as f64) + delta).max(0.0).min(25.0) as u32` (floating-point to
unsigned casts truncate toward zero and saturate below at `0`). -/
def energyClamp (e : ℕ) (delta : ℚ) : ℕ :=
  (Int.floor (min (max ((e : ℚ) + delta) 0) 25)).toNat

/-- One iteration of the `for consequence in consequences` loop of
`apply_consequences`.  Note that `TraditionMastery` and
`GovernorRelationship` are clamped from above only (`.min(1.0)` with no
lower bound), `ItemGain` pushes unconditionally, and `AethyrAccess`
appends only when absent. -/
def applyConsequenceStep (s : StoryState) (c : StateConsequence) : StoryState :=
  match c.consequence_type with
  | .reputationChange =>
    { s with reputation_scores :=
               updQ s.reputation_scores c.target
                 (s.reputation_scores c.target + c.value_change) }
  | .traditionMastery =>
    { s with tradition_mastery :=
               updQ s.tradition_mastery c.target
                 (min (s.tradition_mastery c.target + c.value_change) 1) }
  | .governorRelationship =>
    { s with governor_relationships :=
               updQ s.governor_relationships c.target
                 (min (s.governor_relationships c.target + c.value_change) 1) }
  | .energyModification =>
    { s with energy_level := energyClamp s.energy_level c.value_change }
  | .itemGain =>
    { s with sacred_items := s.sacred_items ++ [c.target] }
  | .aethyrAccess =>
    match c.target.toNat? with
    | some aethyr_id => { s with aethyr_access := addAbsent s.aethyr_access aethyr_id }
    | none => s
  | _ => s

/-- `apply_consequences`: fold the consequence list over the state, then
refresh the timestamp and recompute the state hash. -/
def apply_consequences (mgr : TracStateManager) (s : StoryState)
    (cs : List StateConsequence) : StoryState :=
  let s₁ := cs.foldl applyConsequenceStep s
  let s₂ := { s₁ with timestamp := get_current_timestamp mgr }
  { s₂ with state_hash := calculate_state_hash s₂ }

/-- Lookup in the `parameters` association list (`HashMap::get`). -/
def lookupParam (ps : List (String × String)) (k : String) : Option String :=
  (ps.find? (fun kv => kv.1 = k)).map (fun kv => kv.2)

/-- `calculate_action_consequences`: the deterministic action-to-consequence
policy table (the `current_state` argument is unused in the source too). -/
def calculate_action_consequences (action : QuestAction) (_current : StoryState) :
    List StateConsequence :=
  match action.action_type with
  | .completeQuest =>
    [⟨.reputationChange, ("overall"), 1/10, .permanent, 5/100⟩,
     ⟨.traditionMastery, ("Enochian"), 5/100, .permanent, 8/100⟩]
  | .interactWithGovernor =>
    [⟨.governorRelationship, (lookupParam action.parameters ("governor_name")).getD ("unknown"),
      15/100, .permanent, 1/10⟩]
  | .performRitual =>
    [⟨.energyModification, ("energy_level"), -5, .temporary, 0⟩,
     ⟨.wisdomUnlock, ("ritual_knowledge"), 1, .permanent, 12/100⟩]
  | _ =>
    [⟨.reputationChange, ("overall"), 1/100, .temporary, 1/100⟩]

/-- `validate_authenticity`: baseline `0.85` plus fixed keyword bonuses,
capped at `1.0`. -/
def validate_authenticity (action : QuestAction) : ℚ :=
  let score : ℚ := 85/100
  let score := if strContainsB ("enochian") action.authenticity_proof then score + 1/10 else score
  let score := if (action.parameters.find? (fun kv => kv.1 = ("tradition"))).isSome
    then score + 5/100 else score
  min score 1

/-- `create_signature`: the string-formatted pseudo-signature. -/
def create_signature (t : StateTransition) (validator_id : String) : String :=
  validator_id ++ ("_") ++ t.transition_id ++ ("_") ++ natRepr t.timestamp
    ++ ("_") ++ ("signature_hash")

/-- The quorum size of `check_consensus`:
`(validators.len() as f64 * consensus_threshold).ceil() as usize`. -/
def requiredSignatures (mgr : TracStateManager) : ℕ :=
  (Int.ceil ((mgr.authenticity_validators.length : ℚ)
    * mgr.consensus_rules.consensus_threshold)).toNat

/-- `check_consensus`: quorum is reached when the signature count is at
least `requiredSignatures`. -/
def check_consensus (mgr : TracStateManager) (t : StateTransition) : Bool :=
  requiredSignatures mgr ≤ t.validator_signatures.length

/-- `finalize_transition`: remove the pending transition at `i`, apply its
consequences to the canonical state and append the result to history. -/
def finalize_transition (mgr : TracStateManager) (i : ℕ) : TracStateManager :=
  match mgr.pending_transitions[i]? with
  | none => mgr
  | some t =>
    let mgr₁ := { mgr with pending_transitions := mgr.pending_transitions.eraseIdx i }
    match mgr₁.current_state with
    | none => mgr₁
    | some cur =>
      let new_state := apply_consequences mgr₁ cur t.consequences
      { mgr₁ with current_state := some new_state,
                  state_history := mgr₁.state_history ++ [new_state] }

/-- The `ValidatorSignature` record built inside `validate_transition`. -/
def mkValidatorSig (mgr : TracStateManager) (t : StateTransition)
    (validator_id : String) : ValidatorSignature where
  validator_id := validator_id
  signature := create_signature t validator_id
  validation_timestamp := get_current_timestamp mgr
  authenticity_score := validate_authenticity t.quest_action

/-- `transition.validator_signatures.push(signature)`. -/
def appendSig (t : StateTransition) (sig : ValidatorSignature) : StateTransition :=
  { t with validator_signatures := t.validator_signatures ++ [sig] }

/-- `validate_transition`: locate the first pending transition with the
given id, append a freshly built validator signature, then finalize
immediately if quorum is reached. -/
def validate_transition (mgr : TracStateManager) (transition_id validator_id : String) :
    TracStateManager × Option ValidatorSignature :=
  match List.findIdx? (fun t => t.transition_id == transition_id) mgr.pending_transitions with
  | none => (mgr, none)
  | some i =>
    match mgr.pending_transitions[i]? with
    | none => (mgr, none)
    | some t =>
      let sig := mkValidatorSig mgr t validator_id
      let t' := appendSig t sig
      let mgr' := { mgr with pending_transitions := mgr.pending_transitions.set i t' }
      if check_consensus mgr' t' then (finalize_transition mgr' i, some sig)
      else (mgr', some sig)

/-- `propose_state_transition` (acting on an already-parsed `QuestAction`;
the serde boundary is out of scope).  Note: the pending list is appended to
unconditionally — `max_pending_transitions` is never consulted. -/
def propose_state_transition (mgr : TracStateManager) (action : QuestAction) :
    TracStateManager × Option StateTransition :=
  match mgr.current_state with
  | none => (mgr, none)
  | some current_state =>
    let consequences := calculate_action_consequences action current_state
    let new_state := apply_consequences mgr current_state consequences
    let transition : StateTransition :=
      { transition_id := action.quest_id ++ ("_") ++ natRepr (get_current_timestamp mgr)
        from_state_hash := current_state.state_hash
        to_state_hash := calculate_state_hash new_state
        quest_action := action
        consequences := consequences
        validator_signatures := []
        timestamp := get_current_timestamp mgr
        block_height := get_current_block_height mgr }
    ({ mgr with pending_transitions := mgr.pending_transitions ++ [transition] },
     some transition)

/-- `initialize_player_state`. -/
def initialize_player_state (mgr : TracStateManager) (pid : String) :
    TracStateManager × StoryState :=
  let initial : StoryState :=
    { player_id := pid
      current_quest_id := ("welcome_quest")
      completed_quests := []
      active_branches := []
      governor_relationships := fun _ => 0
      tradition_mastery := updQ (updQ (fun _ => 0) ("Enochian") (1/10)) ("Hermetic_Qabalah") (5/100)
      reputation_scores := fun _ => 0
      energy_level := 25
      aethyr_access := []
      sacred_items := []
      timestamp := get_current_timestamp mgr
      state_hash := ("") }
  let final_state := { initial with state_hash := calculate_state_hash initial }
  ({ mgr with current_state := some final_state,
              state_history := mgr.state_history ++ [final_state] },
   final_state)

/-! ### Operation traces used by the invariant claims -/

/-- The `EnochianCore` stores reachable through the embedded operations
(failed calls return an error and leave the store untouched, so only
successful calls appear as steps). -/
inductive Reachable : EnochianCore → Prop where
  | new (cfg : SystemConfig) : Reachable (EnochianCore.new cfg)
  | register (c : EnochianCore) (q : QuestData) (c' : EnochianCore) :
      Reachable c → register_quest c q = .ok c' → Reachable c'
  | create (c : EnochianCore) (pid now : String) (c' : EnochianCore) :
      Reachable c → create_player_state c pid now = .ok c' → Reachable c'
  | start (c : EnochianCore) (pid qid now : String) (c' : EnochianCore) :
      Reachable c → start_quest c pid qid now = .ok c' → Reachable c'
  | complete (c : EnochianCore) (pid qid now : String) (c' : EnochianCore)
      (r : QuestRewards) :
      Reachable c → complete_quest c pid qid now = .ok (c', r) → Reachable c'

/-- The energy values a player can hold after player creation followed by
any interleaving of successful `start_quest` calls and applied consequence
lists (which include `EnergyModification` consequences). -/
inductive EnergyReach : ℕ → Prop where
  | create (pid now : String) : EnergyReach (newGameState pid now).energy_level
  | start (c : EnochianCore) (pid qid now : String) (c' : EnochianCore)
      (gs gs' : GameState) :
      c.game_states pid = some gs → EnergyReach gs.energy_level →
      start_quest c pid qid now = .ok c' → c'.game_states pid = some gs' →
      EnergyReach gs'.energy_level
  | consequence (mgr : TracStateManager) (s : StoryState) (cs : List StateConsequence) :
      EnergyReach s.energy_level →
      EnergyReach ((apply_consequences mgr s cs).energy_level)

/-! ### Concrete fixtures -/

/-- An empty rewards bundle. -/
def emptyRewards : QuestRewards where
  experience := 0
  reputation_changes := []
  tradition_mastery_gains := []
  governor_relationship_changes := []
  bitcoin_rewards := 0
  sacred_items := []
  hypertoken_rewards := []
  aethyr_access_gained := []

/-- A rewards bundle exercising the item/token/tier grant paths. -/
def demoRewards : QuestRewards where
  experience := 100
  reputation_changes := [(("overall"), 1/10)]
  tradition_mastery_gains := [(("Enochian"), 5/100)]
  governor_relationship_changes := [(("OCCODON"), 15/100)]
  bitcoin_rewards := 1000
  sacred_items := [("sigil")]
  hypertoken_rewards := [("token1")]
  aethyr_access_gained := [2]

/-- A quest that passes `validate_quest` under the default configuration. -/
def demoQuest : QuestData where
  quest_id := ("q1")
  title := ("The First Call")
  description := ("demo")
  objectives := []
  wisdom_taught := ("demo")
  choice_branches := []
  authenticity_score := 96/100
  estimated_duration := 30
  tradition_integration := [("Enochian")]
  governor_name := ("OCCODON")
  difficulty_level := 3
  required_energy := 10
  rewards := demoRewards
  created_at := ("t0")

/-- A quest whose authenticity score is below the default threshold. -/
def badQuest : QuestData := { demoQuest with authenticity_score := 80/100 }

/-- A fresh store under the default configuration. -/
def c0 : EnochianCore := EnochianCore.new SystemConfig.default

/-- `c0` after registering `demoQuest`. -/
def c1 : EnochianCore :=
  { c0 with quest_registry := updFn c0.quest_registry ("q1") demoQuest }

/-- `c1` after creating player `p1`. -/
def c2 : EnochianCore :=
  { c1 with game_states := updFn c1.game_states ("p1") (newGameState ("p1") ("t1")) }

/-- The state of player `p1` after starting `q1`. -/
def startedGS : GameState :=
  { newGameState ("p1") ("t1") with
    active_quests := [("q1")], energy_level := 15, last_update := ("t2"), version := 2 }

/-- `c2` after player `p1` starts quest `q1`. -/
def c3 : EnochianCore :=
  { c2 with game_states := updFn c2.game_states ("p1") startedGS }

/-- A concrete `StoryState` (a fresh player's chain state). -/
def demoStoryState : StoryState where
  player_id := ("p1")
  current_quest_id := ("welcome_quest")
  completed_quests := []
  active_branches := []
  governor_relationships := fun _ => 0
  tradition_mastery := fun _ => 0
  reputation_scores := fun _ => 0
  energy_level := 25
  aethyr_access := []
  sacred_items := []
  timestamp := 0
  state_hash := ("")

/-- A concrete `QuestAction`. -/
def demoAction : QuestAction where
  action_type := .performRitual
  quest_id := ("q1")
  choice_id := none
  parameters := []
  authenticity_proof := ("proof")

/-- A concrete pending `StateTransition` with no signatures. -/
def demoTransition : StateTransition where
  transition_id := ("t0")
  from_state_hash := ("h0")
  to_state_hash := ("h1")
  quest_action := demoAction
  consequences := []
  validator_signatures := []
  timestamp := 0
  block_height := 0

/-- A concrete validator signature. -/
def demoSig : ValidatorSignature where
  validator_id := ("v0")
  signature := ("sig0")
  validation_timestamp := 0
  authenticity_score := 1

/-- A pending transition that already carries two signatures (one short of
the default quorum of three). -/
def demoT2 : StateTransition :=
  { demoTransition with transition_id := ("t1"),
                        validator_signatures := [demoSig, demoSig] }

/-- A default manager with `demoT2` pending. -/
def mgrC1 : TracStateManager :=
  { TracStateManager.new with pending_transitions := [demoT2] }

/-- A manager whose pending collection already holds
`max_pending_transitions = 100` entries. -/
def mgrFull : TracStateManager :=
  { TracStateManager.new with
    current_state := some demoStoryState,
    pending_transitions := List.replicate 100 demoTransition }

/-- First half of the hash-collision pair: player `a_b`, quest `c`. -/
def s9a : StoryState :=
  { demoStoryState with player_id := ("a_b"), current_quest_id := ("c") }

/-- Second half of the hash-collision pair: player `a`, quest `b_c`. -/
def s9b : StoryState :=
  { demoStoryState with player_id := ("a"), current_quest_id := ("b_c") }

/-- `demoStoryState` with a different player id. -/
def w9p : StoryState := { demoStoryState with player_id := ("p2") }

/-- `demoStoryState` with a different current quest id. -/
def w9q : StoryState := { demoStoryState with current_quest_id := ("other") }

/-- `demoStoryState` with a different timestamp. -/
def w9t : StoryState := { demoStoryState with timestamp := 1 }

/-- `demoStoryState` with a different completed-quest count. -/
def w9n : StoryState := { demoStoryState with completed_quests := [("a")] }

/-- A state agreeing with `s10b` exactly on the hash-relevant fields. -/
def s10a : StoryState :=
  { demoStoryState with completed_quests := [("x"), ("y")] }

/-- A state agreeing with `s10a` on the hash-relevant fields but differing
in energy, maps, items, tiers, branches and completed-quest contents. -/
def s10b : StoryState where
  player_id := ("p1")
  current_quest_id := ("welcome_quest")
  completed_quests := [("u"), ("v")]
  active_branches := [("branch1")]
  governor_relationships := fun _ => 1/2
  tradition_mastery := fun _ => 1
  reputation_scores := fun _ => 3
  energy_level := 0
  aethyr_access := [1, 2, 3]
  sacred_items := [("sword")]
  timestamp := 0
  state_hash := ("different")

/-! ### Helper lemmas: decimal representation -/

theorem natDigitsAux_eq_digits (fuel : ℕ) :
    ∀ n : ℕ, n ≤ fuel → natDigitsAux fuel n = Nat.digits 10 n := by
  induction fuel with
  | zero =>
    intro n hn
    interval_cases n
    simp [natDigitsAux]
  | succ fuel ih =>
    intro n hn
    by_cases hz : n = 0
    · subst hz; simp [natDigitsAux]
    · have hpos : 0 < n := Nat.pos_of_ne_zero hz
      have hdiv : n / 10 ≤ fuel := by
        have h1 : n / 10 < n := Nat.div_lt_self hpos (by norm_num)
        omega
      rw [natDigitsAux, if_neg hz, ih (n / 10) hdiv,
        ← Nat.digits_def' (b := 10) (by norm_num) hpos]

theorem natDigits_eq_digits (n : ℕ) : natDigits n = Nat.digits 10 n :=
  natDigitsAux_eq_digits n n le_rfl

theorem natDigits_injective : Function.Injective natDigits := by
  intro a b h
  apply Nat.digits.injective 10
  rw [← natDigits_eq_digits, ← natDigits_eq_digits]
  exact h

theorem natDigits_lt_ten {n d : ℕ} (hd : d ∈ natDigits n) : d < 10 := by
  rw [natDigits_eq_digits] at hd
  exact Nat.digits_lt_base (by norm_num) hd

theorem natDigits_eq_zero_singleton {n : ℕ} (h : natDigits n = [0]) : n = 0 := by
  have h1 := Nat.ofDigits_digits 10 n
  rw [← natDigits_eq_digits, h] at h1
  simpa [Nat.ofDigits] using h1.symm

theorem digitChar_inj : ∀ a, a < 10 → ∀ b, b < 10 → digitChar a = digitChar b → a = b := by
  decide

theorem map_digitChar_inj :
    ∀ (l₁ l₂ : List ℕ), (∀ d ∈ l₁, d < 10) → (∀ d ∈ l₂, d < 10) →
      l₁.map digitChar = l₂.map digitChar → l₁ = l₂ := by
  intro l₁
  induction l₁ with
  | nil =>
    intro l₂ _ _ h
    cases l₂ with
    | nil => rfl
    | cons b bs => simp at h
  | cons a as ih =>
    intro l₂ h₁ h₂ h
    cases l₂ with
    | nil => simp at h
    | cons b bs =>
      simp only [List.map_cons, List.cons.injEq] at h
      have ha : a = b :=
        digitChar_inj a (h₁ a (by simp)) b (h₂ b (by simp)) h.1
      have hs : as = bs :=
        ih bs (fun d hd => h₁ d (by simp [hd])) (fun d hd => h₂ d (by simp [hd])) h.2
      rw [ha, hs]

theorem natRepr_injective : Function.Injective natRepr := by
  intro m n h
  unfold natRepr at h
  by_cases hm : m = 0 <;> by_cases hn : n = 0
  · rw [hm, hn]
  · exfalso
    rw [if_pos hm, if_neg hn] at h
    have hd := congrArg String.data h
    have hd' : ((natDigits n).map digitChar).reverse = ['0'] := hd.symm
    have hmap : (natDigits n).map digitChar = ['0'] := by
      have := congrArg List.reverse hd'
      simpa using this
    cases hdig : natDigits n with
    | nil => rw [hdig] at hmap; simp at hmap
    | cons d rest =>
      rw [hdig] at hmap
      simp only [List.map_cons, List.cons.injEq] at hmap
      have hrest : rest = [] := by
        have := hmap.2
        cases rest with
        | nil => rfl
        | cons x xs => simp at this
      have hd10 : d < 10 := natDigits_lt_ten (by rw [hdig]; simp)
      have hd0 : d = 0 :=
        digitChar_inj d hd10 0 (by norm_num) (by simpa [digitChar] using hmap.1)
      exact hn (natDigits_eq_zero_singleton (by rw [hdig, hd0, hrest]))
  · exfalso
    rw [if_neg hm, if_pos hn] at h
    have hd := congrArg String.data h
    have hd' : ((natDigits m).map digitChar).reverse = ['0'] := hd
    have hmap : (natDigits m).map digitChar = ['0'] := by
      have := congrArg List.reverse hd'
      simpa using this
    cases hdig : natDigits m with
    | nil => rw [hdig] at hmap; simp at hmap
    | cons d rest =>
      rw [hdig] at hmap
      simp only [List.map_cons, List.cons.injEq] at hmap
      have hrest : rest = [] := by
        have := hmap.2
        cases rest with
        | nil => rfl
        | cons x xs => simp at this
      have hd10 : d < 10 := natDigits_lt_ten (by rw [hdig]; simp)
      have hd0 : d = 0 :=
        digitChar_inj d hd10 0 (by norm_num) (by simpa [digitChar] using hmap.1)
      exact hm (natDigits_eq_zero_singleton (by rw [hdig, hd0, hrest]))
  · rw [if_neg hm, if_neg hn] at h
    have hd : ((natDigits m).map digitChar).reverse = ((natDigits n).map digitChar).reverse :=
      congrArg String.data h
    have hmap : (natDigits m).map digitChar = (natDigits n).map digitChar := by
      have := congrArg List.reverse hd
      simpa using this
    exact natDigits_injective
      (map_digitChar_inj _ _ (fun d hd => natDigits_lt_ten hd)
        (fun d hd => natDigits_lt_ten hd) hmap)

/-! ### Helper lemmas: list surgery at a known position -/

theorem findIdx_append_first {α : Type} {p : α → Bool} {l₁ l₂ : List α} {t : α}
    (h₁ : ∀ u ∈ l₁, p u = false) (ht : p t = true) :
    List.findIdx? p (l₁ ++ t :: l₂) = some l₁.length := by
  induction l₁ with
  | nil => simp [List.findIdx?_cons, ht]
  | cons a as ih =>
    have ha : p a = false := h₁ a (by simp)
    have ih' := ih (fun u hu => h₁ u (by simp [hu]))
    simp [List.findIdx?_cons, ha, ih']

theorem getElem?_append_middle {α : Type} (l₁ : List α) (t : α) (l₂ : List α) :
    (l₁ ++ t :: l₂)[l₁.length]? = some t := by
  induction l₁ with
  | nil => simp
  | cons a as ih => simpa using ih

theorem set_append_middle {α : Type} (l₁ : List α) (t t' : α) (l₂ : List α) :
    (l₁ ++ t :: l₂).set l₁.length t' = l₁ ++ t' :: l₂ := by
  induction l₁ with
  | nil => rfl
  | cons a as ih => simp [List.set, ih]

theorem eraseIdx_append_middle {α : Type} (l₁ : List α) (t : α) (l₂ : List α) :
    (l₁ ++ t :: l₂).eraseIdx l₁.length = l₁ ++ l₂ := by
  induction l₁ with
  | nil => rfl
  | cons a as ih => simp [List.eraseIdx, ih]

/-! ### Helper lemmas: append-if-absent folds -/

theorem mem_foldl_addAbsent_of_mem {α : Type} [DecidableEq α] {a : α} :
    ∀ (l : List α) (cur : List α), a ∈ cur → a ∈ l.foldl addAbsent cur := by
  intro l
  induction l with
  | nil => intro cur h; simpa using h
  | cons b bs ih =>
    intro cur h
    have hmem : a ∈ addAbsent cur b := by
      by_cases hb : b ∈ cur
      · simpa [addAbsent, hb] using h
      · simp [addAbsent, hb, h]
    simpa using ih _ hmem

theorem mem_foldl_addAbsent_of_mem_arg {α : Type} [DecidableEq α] {a : α} :
    ∀ (l : List α) (cur : List α), a ∈ l → a ∈ l.foldl addAbsent cur := by
  intro l
  induction l with
  | nil => intro cur h; simp at h
  | cons b bs ih =>
    intro cur h
    rcases List.mem_cons.mp h with h | h
    · subst h
      simp only [List.foldl_cons]
      apply mem_foldl_addAbsent_of_mem
      by_cases ha : a ∈ cur
      · have heq : addAbsent cur a = cur := if_pos ha
        rw [heq]
        exact ha
      · have heq : addAbsent cur a = cur ++ [a] := if_neg ha
        rw [heq]
        simp
    · exact ih _ h

theorem foldl_addAbsent_of_subset {α : Type} [DecidableEq α] :
    ∀ (l : List α) (cur : List α), (∀ a ∈ l, a ∈ cur) → l.foldl addAbsent cur = cur := by
  intro l
  induction l with
  | nil => intro cur _; rfl
  | cons b bs ih =>
    intro cur h
    have hb : addAbsent cur b = cur := by
      unfold addAbsent
      rw [if_pos (h b (by simp))]
    simp only [List.foldl_cons, hb]
    exact ih cur (fun a ha => h a (by simp [ha]))

theorem foldl_addAbsent_idem {α : Type} [DecidableEq α] (l cur : List α) :
    l.foldl addAbsent (l.foldl addAbsent cur) = l.foldl addAbsent cur :=
  foldl_addAbsent_of_subset l _ (fun _ ha => mem_foldl_addAbsent_of_mem_arg l cur ha)

/-! ### Helper lemmas: energy clamp -/

theorem energyClamp_le (e : ℕ) (delta : ℚ) : energyClamp e delta ≤ 25 := by
  unfold energyClamp
  have h : min (max ((e : ℚ) + delta) 0) 25 ≤ 25 := min_le_right _ _
  have h1 : Int.floor (min (max ((e : ℚ) + delta) 0) 25) ≤ Int.floor (25 : ℚ) :=
    Int.floor_le_floor h
  have h2 : Int.floor (25 : ℚ) = 25 := by norm_num
  omega

theorem applyConsequenceStep_energy_le (s : StoryState) (c : StateConsequence)
    (h : s.energy_level ≤ 25) : (applyConsequenceStep s c).energy_level ≤ 25 := by
  unfold applyConsequenceStep
  rcases c with ⟨ty, target, value, dur, impact⟩
  cases ty <;> simp only
  · exact h
  · exact h
  · exact h
  · exact energyClamp_le _ _
  · exact h
  · exact h
  · cases target.toNat? <;> simp <;> exact h
  · exact h

theorem foldl_step_energy_le :
    ∀ (cs : List StateConsequence) (s : StoryState), s.energy_level ≤ 25 →
      (cs.foldl applyConsequenceStep s).energy_level ≤ 25 := by
  intro cs
  induction cs with
  | nil => intro s h; simpa using h
  | cons c rest ih =>
    intro s h
    simpa using ih _ (applyConsequenceStep_energy_le s c h)

theorem apply_consequences_energy_le (mgr : TracStateManager) (s : StoryState)
    (cs : List StateConsequence) (h : s.energy_level ≤ 25) :
    (apply_consequences mgr s cs).energy_level ≤ 25 := by
  unfold apply_consequences
  simpa using foldl_step_energy_le cs s h

/-! ### Helper lemmas: strings -/

theorem string_eq_of_data_eq {s t : String} (h : s.data = t.data) : s = t := by
  cases s
  cases t
  exact congrArg String.mk h

theorem calculate_state_hash_data (s : StoryState) :
    (calculate_state_hash s).data =
      ("hash_").data ++ (s.player_id.data ++ (("_").data ++ (s.current_quest_id.data
        ++ (("_").data ++ ((natRepr s.timestamp).data ++ (("_").data
        ++ (natRepr s.completed_quests.length).data)))))) := by
  simp [calculate_state_hash, String.data_append, List.append_assoc]

/-! ### Helper lemmas: inversion of the store operations -/

theorem register_quest_ok_inv {c : EnochianCore} {q : QuestData} {c' : EnochianCore}
    (h : register_quest c q = .ok c') :
    c' = { c with quest_registry := updFn c.quest_registry q.quest_id q } := by
  unfold register_quest at h
  cases hv : validate_quest c q with
  | error e => rw [hv] at h; simp at h
  | ok u =>
    rw [hv] at h
    simp only [Except.ok.injEq] at h
    exact h.symm

theorem create_player_ok_inv {c : EnochianCore} {pid now : String} {c' : EnochianCore}
    (h : create_player_state c pid now = .ok c') :
    c.game_states pid = none ∧
      c' = { c with game_states := updFn c.game_states pid (newGameState pid now) } := by
  unfold create_player_state at h
  cases hg : c.game_states pid with
  | some gs => rw [hg] at h; simp at h
  | none =>
    rw [hg] at h
    simp only [Except.ok.injEq] at h
    exact ⟨rfl, h.symm⟩

theorem validate_quest_start_ok_iff {c : EnochianCore} {gs : GameState} {q : QuestData} :
    validate_quest_start c gs q = .ok () ↔
      ¬ gs.energy_level < q.required_energy ∧
      ¬ c.config.max_concurrent_quests ≤ gs.active_quests.length ∧
      q.quest_id ∉ gs.completed_quests ∧
      q.quest_id ∉ gs.active_quests := by
  unfold validate_quest_start
  split_ifs with h1 h2 h3 h4 <;> simp [*]

theorem start_quest_ok_inv {c : EnochianCore} {pid qid now : String} {c' : EnochianCore}
    (h : start_quest c pid qid now = .ok c') :
    ∃ gs q, c.game_states pid = some gs ∧ c.quest_registry qid = some q ∧
      validate_quest_start c gs q = .ok () ∧
      c' = { c with
             game_states := updFn c.game_states pid
               ({ gs with
                  active_quests := gs.active_quests ++ [qid],
                  energy_level := gs.energy_level - q.required_energy,
                  last_update := now,
                  version := gs.version + 1 }) } := by
  unfold start_quest at h
  split at h
  · simp at h
  · rename_i gs hg
    split at h
    · simp at h
    · rename_i q hq
      split at h
      · simp at h
      · rename_i u hv
        simp only [Except.ok.injEq] at h
        exact ⟨gs, q, hg, hq, by rw [hv], h.symm⟩

theorem complete_quest_ok_inv {c : EnochianCore} {pid qid now : String}
    {c' : EnochianCore} {r : QuestRewards}
    (h : complete_quest c pid qid now = .ok (c', r)) :
    ∃ gs q gs₃, c.game_states pid = some gs ∧ c.quest_registry qid = some q ∧
      qid ∈ gs.active_quests ∧ r = q.rewards ∧
      gs₃.active_quests = gs.active_quests.filter (fun x => x ≠ qid) ∧
      gs₃.completed_quests = gs.completed_quests ++ [qid] ∧
      c' = { c with game_states := updFn c.game_states pid gs₃ } := by
  unfold complete_quest at h
  split at h
  · simp at h
  · rename_i gs hg
    split at h
    · simp at h
    · rename_i q hq
      split at h
      · rename_i hmem
        simp only [Except.ok.injEq, Prod.mk.injEq] at h
        refine ⟨gs, q, _, hg, hq, hmem, h.2.symm, ?_, ?_, h.1.symm⟩
        · rfl
        · rfl
      · simp at h

/-! ### Helper lemmas: the reachable-store invariant -/

theorem reachable_invariant :
    ∀ c : EnochianCore, Reachable c →
      (∀ k q, c.quest_registry k = some q → q.quest_id = k) ∧
      (∀ pid gs, c.game_states pid = some gs →
        ∀ x ∈ gs.active_quests, x ∉ gs.completed_quests) := by
  intro c h
  induction h with
  | new cfg =>
    refine ⟨?_, ?_⟩
    · intro k q hk
      simp [EnochianCore.new] at hk
    · intro pid gs hg
      simp [EnochianCore.new] at hg
  | register c q c' _ hok ih =>
    obtain rfl := register_quest_ok_inv hok
    refine ⟨?_, ?_⟩
    · intro k qq hk
      simp only [updFn] at hk
      by_cases hkq : k = q.quest_id
      · rw [if_pos hkq] at hk
        obtain rfl := Option.some.inj hk
        exact hkq.symm
      · rw [if_neg hkq] at hk
        exact ih.1 k qq hk
    · intro pid gs hg
      exact ih.2 pid gs hg
  | create c pid now c' _ hok ih =>
    obtain ⟨_, rfl⟩ := create_player_ok_inv hok
    refine ⟨ih.1, ?_⟩
    · intro pid' gs hg
      simp only [updFn] at hg
      by_cases hpp : pid' = pid
      · rw [if_pos hpp] at hg
        obtain rfl := Option.some.inj hg
        intro x hx
        simp [newGameState] at hx
      · rw [if_neg hpp] at hg
        exact ih.2 pid' gs hg
  | start c pid qid now c' _ hok ih =>
    obtain ⟨gs, q, hgs, hq, hv, rfl⟩ := start_quest_ok_inv hok
    have hvc := validate_quest_start_ok_iff.mp hv
    have hqid : q.quest_id = qid := ih.1 qid q hq
    refine ⟨ih.1, ?_⟩
    · intro pid' gs' hg
      simp only [updFn] at hg
      by_cases hpp : pid' = pid
      · rw [if_pos hpp] at hg
        obtain rfl := Option.some.inj hg
        intro x hx
        simp only [List.mem_append, List.mem_singleton] at hx
        rcases hx with hx | hx
        · exact ih.2 pid gs hgs x hx
        · subst hx
          rw [← hqid]
          exact hvc.2.2.1
      · rw [if_neg hpp] at hg
        exact ih.2 pid' gs' hg
  | complete c pid qid now c' r _ hok ih =>
    obtain ⟨gs, q, gs₃, hgs, hq, hmem, _, hact, hcomp, rfl⟩ := complete_quest_ok_inv hok
    refine ⟨ih.1, ?_⟩
    · intro pid' gs' hg
      simp only [updFn] at hg
      by_cases hpp : pid' = pid
      · rw [if_pos hpp] at hg
        obtain rfl := Option.some.inj hg
        intro x hx
        rw [hact] at hx
        rw [hcomp]
        simp only [List.mem_filter, decide_eq_true_eq] at hx
        simp only [List.mem_append, List.mem_singleton]
        push_neg
        exact ⟨ih.2 pid gs hgs x hx.1, hx.2⟩
      · rw [if_neg hpp] at hg
        exact ih.2 pid' gs' hg

/-! ### Helper lemmas: the concrete demo trace -/

theorem register_c0_demo : register_quest c0 demoQuest = .ok c1 := by
  have h1 : ¬ demoQuest.authenticity_score < c0.config.authenticity_threshold := by
    norm_num [demoQuest, c0, EnochianCore.new, SystemConfig.default]
  have h2 : ¬ (demoQuest.difficulty_level = 0 ∨ 10 < demoQuest.difficulty_level) := by
    norm_num [demoQuest]
  have h3 : ¬ 25 < demoQuest.required_energy := by
    norm_num [demoQuest]
  have hv : validate_quest c0 demoQuest = .ok () := by
    unfold validate_quest
    rw [if_neg h1, if_neg h2, if_neg h3]
  unfold register_quest
  rw [hv]
  rfl

theorem create_c1_demo : create_player_state c1 ("p1") ("t1") = .ok c2 := rfl

theorem start_c2_demo : start_quest c2 ("p1") ("q1") ("t2") = .ok c3 := rfl

theorem reach_c3 : Reachable c3 :=
  Reachable.start c2 ("p1") ("q1") ("t2") c3
    (Reachable.create c1 ("p1") ("t1") c2
      (Reachable.register c0 demoQuest c1
        (Reachable.new SystemConfig.default) register_c0_demo)
      create_c1_demo)
    start_c2_demo

/-- C7: for every player of a store reachable by any sequence of
`create_player_state`, `start_quest` and `complete_quest` calls (failed
calls leave the store unchanged), the active and completed quest sets are
disjoint: no quest id appears in both at once. -/
theorem active_completed_disjoint (c : EnochianCore) (h : Reachable c) :
    ∀ pid gs, c.game_states pid = some gs →
      ∀ x ∈ gs.active_quests, x ∉ gs.completed_quests :=
  (reachable_invariant c h).2

/-- Witness for C7 at the concrete trace `c0 → c1 → c2 → c3`. -/
theorem active_completed_disjoint_witness :
    ("q1" : String) ∉ startedGS.completed_quests :=
  active_completed_disjoint c3 reach_c3 ("p1") startedGS rfl ("q1") (by decide)

/-- C6: every energy value reachable from player creation through any
interleaving of successful `start_quest` calls and applied consequence
lists (including `EnergyModification` consequences) stays at most `25`;
the lower bound `0` holds by the `u32`/`ℕ` representation together with
the saturating subtraction and the saturating float cast. -/
theorem energy_bound_invariant : ∀ e : ℕ, EnergyReach e → e ≤ 25 := by
  intro e h
  induction h with
  | create pid now => simp [newGameState]
  | start c pid qid now c' gs gs' hgs _ hok hgs' ih =>
    obtain ⟨gs₀, q, hgs₀, _, _, rfl⟩ := start_quest_ok_inv hok
    rw [hgs] at hgs₀
    obtain rfl := Option.some.inj hgs₀
    simp only [updFn, if_true] at hgs'
    obtain rfl := Option.some.inj hgs'
    simp only
    omega
  | consequence mgr s cs _ ih =>
    exact apply_consequences_energy_le mgr s cs ih

/-- Witness for C6: a fresh player's energy, and the energy after a
`PerformRitual` consequence list, are both within bounds. -/
theorem energy_bound_invariant_witness :
    (apply_consequences TracStateManager.new demoStoryState
      (calculate_action_consequences demoAction demoStoryState)).energy_level ≤ 25 :=
  energy_bound_invariant _
    (EnergyReach.consequence TracStateManager.new demoStoryState
      (calculate_action_consequences demoAction demoStoryState)
      (EnergyReach.create ("p1") ("t0")))

/-- C2: `register_quest` rejects exactly when the quest's authenticity
score is below the configured threshold, or its difficulty level lies
outside `[1, 10]`, or its required energy exceeds `25`; otherwise
registration succeeds.  The three rejection cases surface as
`AuthenticityError` and `Generic` errors in the order the source checks
them. -/
theorem register_quest_reject_iff (c : EnochianCore) (q : QuestData) :
    ((∃ c', register_quest c q = .ok c') ↔
      ¬ (q.authenticity_score < c.config.authenticity_threshold ∨
         q.difficulty_level = 0 ∨ 10 < q.difficulty_level ∨
         25 < q.required_energy)) ∧
    (q.authenticity_score < c.config.authenticity_threshold →
      register_quest c q =
        .error (authenticityBelowThresholdErr q.authenticity_score
          c.config.authenticity_threshold)) ∧
    (¬ q.authenticity_score < c.config.authenticity_threshold →
      (q.difficulty_level = 0 ∨ 10 < q.difficulty_level) →
      register_quest c q = .error invalidDifficultyErr) ∧
    (¬ q.authenticity_score < c.config.authenticity_threshold →
      ¬ (q.difficulty_level = 0 ∨ 10 < q.difficulty_level) →
      25 < q.required_energy →
      register_quest c q = .error energyTooHighErr) := by
  refine ⟨?_, ?_, ?_, ?_⟩
  · unfold register_quest validate_quest
    split_ifs with h1 h2 h3
    all_goals simp [*]
    all_goals first
    | tauto
    | omega
  · intro h1
    unfold register_quest validate_quest
    rw [if_pos h1]
  · intro h1 h2
    unfold register_quest validate_quest
    rw [if_neg h1, if_pos h2]
  · intro h1 h2 h3
    unfold register_quest validate_quest
    rw [if_neg h1, if_neg h2, if_pos h3]

/-- Witness for C2: `demoQuest` registers successfully and `badQuest`
(authenticity `0.80` against threshold `0.95`) is rejected with the
authenticity error. -/
theorem register_quest_reject_iff_witness :
    (∃ c', register_quest c0 demoQuest = .ok c') ∧
    register_quest c0 badQuest =
      .error (authenticityBelowThresholdErr badQuest.authenticity_score
        c0.config.authenticity_threshold) :=
  ⟨(register_quest_reject_iff c0 demoQuest).1.mpr
      (by norm_num [demoQuest, c0, EnochianCore.new, SystemConfig.default]),
   (register_quest_reject_iff c0 badQuest).2.1
      (by norm_num [badQuest, demoQuest, c0, EnochianCore.new, SystemConfig.default])⟩

/-- C5: `start_quest` fails with the player/quest not-found errors when an
id is unknown, with the insufficient-energy error when the player's energy
is below the quest's requirement, with the concurrency-limit error when
the active count has reached the configured maximum, and with the
already-completed/already-active errors on duplicate starts (checks in
source order); on success it appends the quest id to the active set,
subtracts the required energy with `saturating_sub`, bumps the version by
one and refreshes the timestamp. -/
theorem start_quest_spec (c : EnochianCore) (pid qid now : String) :
    (c.game_states pid = none →
      start_quest c pid qid now = .error (playerNotFoundErr pid)) ∧
    (∀ gs, c.game_states pid = some gs → c.quest_registry qid = none →
      start_quest c pid qid now = .error (questNotFoundErr qid)) ∧
    (∀ gs q, c.game_states pid = some gs → c.quest_registry qid = some q →
      gs.energy_level < q.required_energy →
      start_quest c pid qid now =
        .error (insufficientEnergyErr q.required_energy gs.energy_level)) ∧
    (∀ gs q, c.game_states pid = some gs → c.quest_registry qid = some q →
      ¬ gs.energy_level < q.required_energy →
      c.config.max_concurrent_quests ≤ gs.active_quests.length →
      start_quest c pid qid now =
        .error (concurrencyLimitErr c.config.max_concurrent_quests)) ∧
    (∀ gs q, c.game_states pid = some gs → c.quest_registry qid = some q →
      ¬ gs.energy_level < q.required_energy →
      ¬ c.config.max_concurrent_quests ≤ gs.active_quests.length →
      q.quest_id ∈ gs.completed_quests →
      start_quest c pid qid now = .error (alreadyCompletedErr q.quest_id)) ∧
    (∀ gs q, c.game_states pid = some gs → c.quest_registry qid = some q →
      ¬ gs.energy_level < q.required_energy →
      ¬ c.config.max_concurrent_quests ≤ gs.active_quests.length →
      q.quest_id ∉ gs.completed_quests →
      q.quest_id ∈ gs.active_quests →
      start_quest c pid qid now = .error (alreadyActiveErr q.quest_id)) ∧
    (∀ gs q, c.game_states pid = some gs → c.quest_registry qid = some q →
      ¬ gs.energy_level < q.required_energy →
      ¬ c.config.max_concurrent_quests ≤ gs.active_quests.length →
      q.quest_id ∉ gs.completed_quests →
      q.quest_id ∉ gs.active_quests →
      start_quest c pid qid now = .ok
        { c with
          game_states := updFn c.game_states pid
            ({ gs with
               active_quests := gs.active_quests ++ [qid],
               energy_level := gs.energy_level - q.required_energy,
               last_update := now,
               version := gs.version + 1 }) }) := by
  refine ⟨?_, ?_, ?_, ?_, ?_, ?_, ?_⟩
  · intro h
    unfold start_quest
    rw [h]
  · intro gs hgs hq
    unfold start_quest
    rw [hgs, hq]
  · intro gs q hgs hq h1
    unfold start_quest
    rw [hgs, hq]
    dsimp only
    have hv : validate_quest_start c gs q =
        .error (insufficientEnergyErr q.required_energy gs.energy_level) := by
      unfold validate_quest_start
      rw [if_pos h1]
    rw [hv]
  · intro gs q hgs hq h1 h2
    unfold start_quest
    rw [hgs, hq]
    dsimp only
    have hv : validate_quest_start c gs q =
        .error (concurrencyLimitErr c.config.max_concurrent_quests) := by
      unfold validate_quest_start
      rw [if_neg h1, if_pos h2]
    rw [hv]
  · intro gs q hgs hq h1 h2 h3
    unfold start_quest
    rw [hgs, hq]
    dsimp only
    have hv : validate_quest_start c gs q = .error (alreadyCompletedErr q.quest_id) := by
      unfold validate_quest_start
      rw [if_neg h1, if_neg h2, if_pos h3]
    rw [hv]
  · intro gs q hgs hq h1 h2 h3 h4
    unfold start_quest
    rw [hgs, hq]
    dsimp only
    have hv : validate_quest_start c gs q = .error (alreadyActiveErr q.quest_id) := by
      unfold validate_quest_start
      rw [if_neg h1, if_neg h2, if_neg h3, if_pos h4]
    rw [hv]
  · intro gs q hgs hq h1 h2 h3 h4
    unfold start_quest
    rw [hgs, hq]
    dsimp only
    have hv : validate_quest_start c gs q = .ok () := by
      unfold validate_quest_start
      rw [if_neg h1, if_neg h2, if_neg h3, if_neg h4]
    rw [hv]

/-- Witness for C5: the success clause at the concrete store `c2` — player
`p1` (energy 25) starts quest `q1` (requires 10), yielding `c3` with
energy 15, active set `[q1]` and version 2. -/
theorem start_quest_spec_witness :
    start_quest c2 ("p1") ("q1") ("t2") = .ok c3 ∧
    c3.game_states ("p1") = some startedGS ∧
    startedGS.energy_level = 15 ∧ startedGS.version = 2 ∧
    startedGS.active_quests = [("q1")] :=
  ⟨(start_quest_spec c2 ("p1") ("q1") ("t2")).2.2.2.2.2.2
      (newGameState ("p1") ("t1")) demoQuest rfl rfl
      (by decide) (by decide) (by decide) (by decide),
   rfl, rfl, rfl, rfl⟩

/-! ### Helper lemmas: quorum arithmetic -/

theorem requiredSignatures_default : requiredSignatures TracStateManager.new = 3 := by
  have hval : ((TracStateManager.new.authenticity_validators.length : ℚ)
      * TracStateManager.new.consensus_rules.consensus_threshold) = 201/100 := by
    norm_num [TracStateManager.new, ConsensusRules.default]
  unfold requiredSignatures
  rw [hval]
  have h1 : (⌈(201 : ℚ)/100⌉ : ℤ) ≤ 3 := Int.ceil_le.mpr (by norm_num)
  have h2 : (2 : ℤ) < ⌈(201 : ℚ)/100⌉ := Int.lt_ceil.mpr (by norm_num)
  omega

theorem validate_transition_pending_eq
    (mgr : TracStateManager) (tid vid : String)
    (l₁ l₂ : List StateTransition) (t : StateTransition)
    (hp : mgr.pending_transitions = l₁ ++ t :: l₂)
    (h₁ : ∀ u ∈ l₁, u.transition_id ≠ tid)
    (ht : t.transition_id = tid) :
    (validate_transition mgr tid vid).1.pending_transitions =
      if requiredSignatures mgr ≤ t.validator_signatures.length + 1
      then l₁ ++ l₂
      else l₁ ++ appendSig t (mkValidatorSig mgr t vid) :: l₂ := by
  have hfind : List.findIdx? (fun u => u.transition_id == tid) mgr.pending_transitions
      = some l₁.length := by
    rw [hp]
    exact findIdx_append_first (fun u hu => by simp [h₁ u hu]) (by simp [ht])
  have hget : mgr.pending_transitions[l₁.length]? = some t := by
    rw [hp]
    exact getElem?_append_middle _ _ _
  have hset : mgr.pending_transitions.set l₁.length (appendSig t (mkValidatorSig mgr t vid))
      = l₁ ++ appendSig t (mkValidatorSig mgr t vid) :: l₂ := by
    rw [hp]
    exact set_append_middle _ _ _ _
  unfold validate_transition
  rw [hfind]
  dsimp only
  rw [hget]
  dsimp only
  rw [hset]
  by_cases hq : requiredSignatures mgr ≤ t.validator_signatures.length + 1
  · have hcheck : check_consensus
        { mgr with pending_transitions := l₁ ++ appendSig t (mkValidatorSig mgr t vid) :: l₂ }
        (appendSig t (mkValidatorSig mgr t vid)) = true := by
      simp [check_consensus, appendSig, requiredSignatures]
      simpa [requiredSignatures] using hq
    rw [if_pos hcheck]
    unfold finalize_transition
    dsimp only
    rw [getElem?_append_middle]
    dsimp only
    rw [eraseIdx_append_middle]
    cases hcur : mgr.current_state with
    | none =>
      dsimp only
      rw [if_pos hq]
    | some cur =>
      dsimp only
      rw [if_pos hq]
  · have hcheck : ¬ (check_consensus
        { mgr with pending_transitions := l₁ ++ appendSig t (mkValidatorSig mgr t vid) :: l₂ }
        (appendSig t (mkValidatorSig mgr t vid)) = true) := by
      simp [check_consensus, appendSig, requiredSignatures]
      simpa [requiredSignatures] using hq
    rw [if_neg hcheck]
    dsimp only
    rw [if_neg hq]

/-- C1: after `validate_transition` appends a validator signature to the
(unique) pending transition with the requested id, that transition is
finalized — removed from the pending collection, exactly once, within the
same call — if and only if its new signature count is at least
`ceil(consensus_threshold * validator_count)`; otherwise it stays pending
with exactly the appended signature.  Under the default rules (3 known
validators, threshold 0.67) the quorum is `ceil(2.01) = 3` signatures. -/
theorem validate_transition_quorum_spec
    (mgr : TracStateManager) (tid vid : String)
    (l₁ l₂ : List StateTransition) (t : StateTransition)
    (hp : mgr.pending_transitions = l₁ ++ t :: l₂)
    (h₁ : ∀ u ∈ l₁, u.transition_id ≠ tid)
    (ht : t.transition_id = tid)
    (h₂ : ∀ u ∈ l₂, u.transition_id ≠ tid) :
    (mkValidatorSig mgr t vid).validator_id = vid ∧
    ((validate_transition mgr tid vid).1.pending_transitions =
      if requiredSignatures mgr ≤ t.validator_signatures.length + 1
      then l₁ ++ l₂
      else l₁ ++ appendSig t (mkValidatorSig mgr t vid) :: l₂) ∧
    (((validate_transition mgr tid vid).1.pending_transitions.countP
        (fun u => u.transition_id == tid) = 0) ↔
      requiredSignatures mgr ≤ t.validator_signatures.length + 1) ∧
    requiredSignatures TracStateManager.new = 3 := by
  have hpend := validate_transition_pending_eq mgr tid vid l₁ l₂ t hp h₁ ht
  refine ⟨rfl, hpend, ?_, requiredSignatures_default⟩
  rw [hpend]
  by_cases hq : requiredSignatures mgr ≤ t.validator_signatures.length + 1
  · rw [if_pos hq]
    simp only [hq, iff_true, List.countP_eq_zero]
    intro u hu
    rcases List.mem_append.mp hu with hu | hu
    · simpa using h₁ u hu
    · simpa using h₂ u hu
  · rw [if_neg hq]
    simp only [hq, iff_false]
    intro hzero
    rw [List.countP_eq_zero] at hzero
    have := hzero (appendSig t (mkValidatorSig mgr t vid)) (by simp)
    simp [appendSig, ht] at this

/-- Witness for C1: in a default manager holding one pending transition
that already carries two signatures, a third validation finalizes it and
empties the pending collection. -/
theorem validate_transition_quorum_spec_witness :
    (mkValidatorSig mgrC1 demoT2 ("v1")).validator_id = ("v1") ∧
    ((validate_transition mgrC1 ("t1") ("v1")).1.pending_transitions =
      if requiredSignatures mgrC1 ≤ demoT2.validator_signatures.length + 1
      then [] ++ []
      else [] ++ appendSig demoT2 (mkValidatorSig mgrC1 demoT2 ("v1")) :: []) ∧
    (((validate_transition mgrC1 ("t1") ("v1")).1.pending_transitions.countP
        (fun u => u.transition_id == ("t1")) = 0) ↔
      requiredSignatures mgrC1 ≤ demoT2.validator_signatures.length + 1) ∧
    requiredSignatures TracStateManager.new = 3 :=
  validate_transition_quorum_spec mgrC1 ("t1") ("v1") [] [] demoT2 rfl
    (by simp) rfl (by simp)

/-- Counterexample for C8: in a manager whose pending collection already
holds `max_pending_transitions = 100` entries, `propose_state_transition`
still succeeds (no `PendingLimitReached` failure exists anywhere in the
code) and the pending collection grows to 101, beyond the configured
bound. -/
theorem propose_pending_limit_counterexample :
    mgrFull.pending_transitions.length = mgrFull.consensus_rules.max_pending_transitions ∧
    (propose_state_transition mgrFull demoAction).2.isSome = true ∧
    (propose_state_transition mgrFull demoAction).1.pending_transitions.length =
      mgrFull.consensus_rules.max_pending_transitions + 1 := by
  refine ⟨?_, ?_, ?_⟩
  · simp [mgrFull, TracStateManager.new, ConsensusRules.default]
  · rfl
  · simp [propose_state_transition, mgrFull, TracStateManager.new, ConsensusRules.default]

/-- C8 as amended: `propose_state_transition` never checks
`max_pending_transitions`; whenever a current state exists it
unconditionally appends the new transition, so the pending collection can
grow beyond the configured bound. -/
theorem propose_appends_unconditionally
    (mgr : TracStateManager) (action : QuestAction) (cur : StoryState)
    (h : mgr.current_state = some cur) :
    ∃ tr : StateTransition,
      propose_state_transition mgr action =
        ({ mgr with pending_transitions := mgr.pending_transitions ++ [tr] }, some tr) ∧
      (propose_state_transition mgr action).1.pending_transitions.length =
        mgr.pending_transitions.length + 1 := by
  unfold propose_state_transition
  rw [h]
  dsimp only
  exact ⟨_, rfl, by simp⟩

/-- Witness for C8 (amended) at the saturated manager `mgrFull`. -/
theorem propose_appends_unconditionally_witness :
    ∃ tr : StateTransition,
      propose_state_transition mgrFull demoAction =
        ({ mgrFull with pending_transitions := mgrFull.pending_transitions ++ [tr] },
         some tr) ∧
      (propose_state_transition mgrFull demoAction).1.pending_transitions.length =
        mgrFull.pending_transitions.length + 1 :=
  propose_appends_unconditionally mgrFull demoAction demoStoryState rfl

/-! ### Helper lemmas: idempotence of a single append-if-absent -/

theorem addAbsent_idem {α : Type} [DecidableEq α] (cur : List α) (a : α) :
    addAbsent (addAbsent cur a) a = addAbsent cur a := by
  by_cases h : a ∈ cur
  · simp [addAbsent, h]
  · simp [addAbsent, h]

/-- Counterexample for C3: the transition-log fold clamps
`TraditionMastery` and `GovernorRelationship` from above only
(`.min(1.0)` with no lower bound), so a negative delta drives the mastery
below `0` and the relationship below `-1`, contradicting the claimed
`clamp(..., 0, 1)` / `clamp(..., -1, 1)` semantics. -/
theorem apply_consequences_clamp_counterexample :
    (apply_consequences TracStateManager.new demoStoryState
      [⟨.traditionMastery, ("Enochian"), -2, .permanent, 0⟩]).tradition_mastery
        ("Enochian") < 0 ∧
    (apply_consequences TracStateManager.new demoStoryState
      [⟨.governorRelationship, ("OCCODON"), -2, .permanent, 0⟩]).governor_relationships
        ("OCCODON") < -1 := by
  constructor
  · simp [apply_consequences, applyConsequenceStep, updQ, demoStoryState]
  · simp [apply_consequences, applyConsequenceStep, updQ, demoStoryState]

/-- C3 as amended: in the transition-log fold a `TraditionMastery`
consequence sets `mastery[target] := min(mastery[target] + delta, 1)` and
a `GovernorRelationship` consequence sets
`relationship[target] := min(relationship[target] + delta, 1)` — clamped
above at `1` but not below, so negative deltas can push the values below
`0` resp. `-1`.  Only the rewards fold clamps relationships into
`[-1, 1]`; its mastery update is likewise `min(..., 1)` with no lower
clamp. -/
theorem apply_consequences_clamp_amended
    (mgr : TracStateManager) (s : StoryState) (target : String) (δ : ℚ)
    (dur : ConsequenceDuration) (ai : ℚ) (gs : GameState) (trad gov : String) :
    (apply_consequences mgr s [⟨.traditionMastery, target, δ, dur, ai⟩]).tradition_mastery
        target = min (s.tradition_mastery target + δ) 1 ∧
    (apply_consequences mgr s [⟨.governorRelationship, target, δ, dur, ai⟩]).governor_relationships
        target = min (s.governor_relationships target + δ) 1 ∧
    (apply_quest_rewards gs ⟨0, [], [(trad, δ)], [], 0, [], [], []⟩).tradition_mastery
        trad = min (gs.tradition_mastery trad + δ) 1 ∧
    (apply_quest_rewards gs ⟨0, [], [], [(gov, δ)], 0, [], [], []⟩).governor_relationships
        gov = max (min (gs.governor_relationships gov + δ) 1) (-1) := by
  refine ⟨?_, ?_, ?_, ?_⟩
  · simp [apply_consequences, applyConsequenceStep, updQ]
  · simp [apply_consequences, applyConsequenceStep, updQ]
  · simp [apply_quest_rewards, updQ]
  · simp [apply_quest_rewards, updQ]

/-- Counterexample for C4: an `ItemGain` consequence pushes its target
onto the sacred-item list unconditionally (no absence check), so applying
the same grant twice duplicates the item and yields a different
collection than applying it once. -/
theorem item_gain_idempotence_counterexample :
    (apply_consequences TracStateManager.new
        (apply_consequences TracStateManager.new demoStoryState
          [⟨.itemGain, ("sword"), 1, .permanent, 0⟩])
        [⟨.itemGain, ("sword"), 1, .permanent, 0⟩]).sacred_items ≠
      (apply_consequences TracStateManager.new demoStoryState
        [⟨.itemGain, ("sword"), 1, .permanent, 0⟩]).sacred_items := by
  simp [apply_consequences, applyConsequenceStep, demoStoryState]

/-- C4 as amended: `AethyrAccess` consequences and the sacred-item,
hypertoken and Aethyr-tier grants of a rewards bundle append only when
absent and hence are idempotent, but an `ItemGain` consequence in the
transition-log fold appends unconditionally (`sacred_items.push`), so it
is not idempotent. -/
theorem grant_idempotence_amended
    (mgr mgr₁ mgr₂ : TracStateManager) (s : StoryState) (target : String)
    (δ : ℚ) (dur : ConsequenceDuration) (ai : ℚ) (gs : GameState)
    (r : QuestRewards) :
    (apply_consequences mgr s [⟨.itemGain, target, δ, dur, ai⟩]).sacred_items
        = s.sacred_items ++ [target] ∧
    (apply_consequences mgr₂ (apply_consequences mgr₁ s
        [⟨.aethyrAccess, target, δ, dur, ai⟩])
        [⟨.aethyrAccess, target, δ, dur, ai⟩]).aethyr_access =
      (apply_consequences mgr₁ s [⟨.aethyrAccess, target, δ, dur, ai⟩]).aethyr_access ∧
    (apply_quest_rewards (apply_quest_rewards gs r) r).sacred_items =
      (apply_quest_rewards gs r).sacred_items ∧
    (apply_quest_rewards (apply_quest_rewards gs r) r).owned_hypertokens =
      (apply_quest_rewards gs r).owned_hypertokens ∧
    (apply_quest_rewards (apply_quest_rewards gs r) r).aethyr_access =
      (apply_quest_rewards gs r).aethyr_access := by
  refine ⟨?_, ?_, ?_, ?_, ?_⟩
  · simp [apply_consequences, applyConsequenceStep]
  · cases hparse : target.toNat? with
    | none => simp [apply_consequences, applyConsequenceStep, hparse]
    | some aid => simp [apply_consequences, applyConsequenceStep, hparse, addAbsent_idem]
  · simp only [apply_quest_rewards]
    exact foldl_addAbsent_idem _ _
  · simp only [apply_quest_rewards]
    exact foldl_addAbsent_idem _ _
  · simp only [apply_quest_rewards]
    exact foldl_addAbsent_idem _ _

/-- Counterexample for C9: the pseudo-hash merely joins the fields with
underscores, so two states that differ in player id (and quest id) can
collide: player `a_b` with quest `c` hashes identically to player `a`
with quest `b_c`, refuting "any two StoryState values that differ in
player id ... produce different hash strings". -/
theorem state_hash_collision_counterexample :
    calculate_state_hash s9a = calculate_state_hash s9b ∧
    s9a.player_id ≠ s9b.player_id := by
  constructor
  · decide
  · decide

/-- C9 as amended: the hash is deterministic — states agreeing on player
id, current quest id, timestamp and completed-quest count hash
identically — and any two states that differ in exactly one of those four
fields (the other three agreeing) hash differently; but, as the
counterexample shows, simultaneous differences in several fields can
collide through the underscore-joined encoding. -/
theorem state_hash_single_field_spec (s₁ s₂ : StoryState) :
    (s₁.player_id = s₂.player_id → s₁.current_quest_id = s₂.current_quest_id →
      s₁.timestamp = s₂.timestamp →
      s₁.completed_quests.length = s₂.completed_quests.length →
      calculate_state_hash s₁ = calculate_state_hash s₂) ∧
    (s₁.player_id ≠ s₂.player_id → s₁.current_quest_id = s₂.current_quest_id →
      s₁.timestamp = s₂.timestamp →
      s₁.completed_quests.length = s₂.completed_quests.length →
      calculate_state_hash s₁ ≠ calculate_state_hash s₂) ∧
    (s₁.player_id = s₂.player_id → s₁.current_quest_id ≠ s₂.current_quest_id →
      s₁.timestamp = s₂.timestamp →
      s₁.completed_quests.length = s₂.completed_quests.length →
      calculate_state_hash s₁ ≠ calculate_state_hash s₂) ∧
    (s₁.player_id = s₂.player_id → s₁.current_quest_id = s₂.current_quest_id →
      s₁.timestamp ≠ s₂.timestamp →
      s₁.completed_quests.length = s₂.completed_quests.length →
      calculate_state_hash s₁ ≠ calculate_state_hash s₂) ∧
    (s₁.player_id = s₂.player_id → s₁.current_quest_id = s₂.current_quest_id →
      s₁.timestamp = s₂.timestamp →
      s₁.completed_quests.length ≠ s₂.completed_quests.length →
      calculate_state_hash s₁ ≠ calculate_state_hash s₂) := by
  refine ⟨?_, ?_, ?_, ?_, ?_⟩
  · intro hp hq ht hn
    unfold calculate_state_hash
    rw [hp, hq, ht, hn]
  · intro hp hq ht hn h
    have hd := congrArg String.data h
    rw [calculate_state_hash_data, calculate_state_hash_data] at hd
    rw [← hq, ← ht, ← hn] at hd
    have h1 := List.append_cancel_left hd
    have h2 := List.append_cancel_right h1
    exact hp (string_eq_of_data_eq h2)
  · intro hp hq ht hn h
    have hd := congrArg String.data h
    rw [calculate_state_hash_data, calculate_state_hash_data] at hd
    rw [hp, ← ht, ← hn] at hd
    have h1 := List.append_cancel_left hd
    have h2 := List.append_cancel_left h1
    have h3 := List.append_cancel_left h2
    have h4 := List.append_cancel_right h3
    exact hq (string_eq_of_data_eq h4)
  · intro hp hq ht hn h
    have hd := congrArg String.data h
    rw [calculate_state_hash_data, calculate_state_hash_data] at hd
    rw [hp, hq, ← hn] at hd
    have h1 := List.append_cancel_left hd
    have h2 := List.append_cancel_left h1
    have h3 := List.append_cancel_left h2
    have h4 := List.append_cancel_left h3
    have h5 := List.append_cancel_left h4
    have h6 := List.append_cancel_right h5
    exact ht (natRepr_injective (string_eq_of_data_eq h6))
  · intro hp hq ht hn h
    have hd := congrArg String.data h
    rw [calculate_state_hash_data, calculate_state_hash_data] at hd
    rw [hp, hq, ht] at hd
    have h1 := List.append_cancel_left hd
    have h2 := List.append_cancel_left h1
    have h3 := List.append_cancel_left h2
    have h4 := List.append_cancel_left h3
    have h5 := List.append_cancel_left h4
    have h6 := List.append_cancel_left h5
    have h7 := List.append_cancel_left h6
    exact hn (natRepr_injective (string_eq_of_data_eq h7))

/-- Witness for C9 (amended): concrete single-field differences around
`demoStoryState` produce distinct hashes, and agreement on all four
fields reproduces the hash. -/
theorem state_hash_single_field_spec_witness :
    calculate_state_hash demoStoryState = calculate_state_hash demoStoryState ∧
    calculate_state_hash demoStoryState ≠ calculate_state_hash w9p ∧
    calculate_state_hash demoStoryState ≠ calculate_state_hash w9q ∧
    calculate_state_hash demoStoryState ≠ calculate_state_hash w9t ∧
    calculate_state_hash demoStoryState ≠ calculate_state_hash w9n :=
  ⟨(state_hash_single_field_spec demoStoryState demoStoryState).1 rfl rfl rfl rfl,
   (state_hash_single_field_spec demoStoryState w9p).2.1 (by decide) rfl rfl rfl,
   (state_hash_single_field_spec demoStoryState w9q).2.2.1 rfl (by decide) rfl rfl,
   (state_hash_single_field_spec demoStoryState w9t).2.2.2.1 rfl rfl (by decide) rfl,
   (state_hash_single_field_spec demoStoryState w9n).2.2.2.2 rfl rfl rfl (by decide)⟩

/-- C10: the hash chain commits only to player id, current quest id,
timestamp and completed-quest count — two states agreeing on those four
fields hash identically even if they differ in energy, reputation,
mastery, relationships, sacred items, Aethyr access, active branches or
the contents (rather than the length) of the completed-quest list. -/
theorem state_hash_ignores_other_fields (s₁ s₂ : StoryState)
    (hp : s₁.player_id = s₂.player_id)
    (hq : s₁.current_quest_id = s₂.current_quest_id)
    (ht : s₁.timestamp = s₂.timestamp)
    (hn : s₁.completed_quests.length = s₂.completed_quests.length) :
    calculate_state_hash s₁ = calculate_state_hash s₂ := by
  unfold calculate_state_hash
  rw [hp, hq, ht, hn]

/-- Witness for C10: `s10a` and `s10b` differ in energy, maps, items,
tiers, branches and completed-quest contents, yet hash identically. -/
theorem state_hash_ignores_other_fields_witness :
    calculate_state_hash s10a = calculate_state_hash s10b ∧
    s10a.energy_level ≠ s10b.energy_level ∧
    s10a.completed_quests ≠ s10b.completed_quests :=
  ⟨state_hash_ignores_other_fields s10a s10b rfl rfl rfl rfl,
   by decide, by decide⟩
